import Mathlib

/-!
Verification of the emulator/VM/container detection engine (`checkEmulator`
in `src/main.js`) against its natural-language specification.

The JavaScript function is embedded shallowly: the ambient inputs it reads
(`app.isPackaged`, `process.env`, `process.platform`) become an explicit
`RuntimeContext`, and the `systeminformation` queries plus the cgroup file
read become an explicit `SystemInfoProvider` whose every query is an
`Except String` value (an `Except.error m` models a rejected promise with
message `m`).  Each numbered section of `checkEmulator` becomes a probe
outcome function, and `checkEmulator` itself threads the `(isEmulator,
evidences)` state through them in source order.
-/

namespace EmulatorDetector

/-- JS truthiness of a possibly-absent string value: `undefined`/`null`
and the empty string are falsy, every other string is truthy. -/
def truthy : Option String → Bool
  | none => false
  | some s => !s.isEmpty

/-- The JS idiom `value || ''` applied to a possibly-absent string. -/
def orEmpty : Option String → String
  | none => ""
  | some s => s

/-- Rendering of a possibly-absent string inside a JS template literal
(`undefined` prints as the string "undefined"). -/
def tmpl : Option String → String
  | none => "undefined"
  | some s => s

/-- `String.prototype.toLowerCase` on the ASCII data used here. -/
def lowerStr (s : String) : String := ⟨s.data.map Char.toLower⟩

/-- `String.prototype.toUpperCase` on the ASCII data used here. -/
def upperStr (s : String) : String := ⟨s.data.map Char.toUpper⟩

/-- `str.substring(0, n)` for the ASCII data used here. -/
def takeStr (s : String) (n : Nat) : String := ⟨s.data.take n⟩

/-- Helper for `jsIncludes`: does `pat` occur as a contiguous run in the list? -/
def hasInfixAux (pat : List Char) : List Char → Bool
  | [] => pat.isEmpty
  | c :: rest => pat.isPrefixOf (c :: rest) || hasInfixAux pat rest

/-- `s.includes(pat)`: substring containment, as in JS. -/
def jsIncludes (s pat : String) : Bool := hasInfixAux pat.data s.data

/-- Ambient state read by `checkEmulator`: `app.isPackaged`,
`process.env` and `process.platform`. -/
structure RuntimeContext where
  isPackaged : Bool
  env : String → Option String
  platform : String

/-- Result shape of `si.system()`: manufacturer and model fields. -/
structure SystemIdent where
  manufacturer : Option String
  model : Option String

/-- Result shape of `si.chassis()`: the `type` field. -/
structure ChassisInfo where
  type : Option String

/-- Result shape of `si.cpu()`: the `brand` field. -/
structure CpuInfo where
  brand : Option String

/-- One entry of `si.networkInterfaces()`: interface name and MAC. -/
structure NetIface where
  iface : String
  mac : Option String

/-- Result shape of `si.bios()`: the `vendor` field. -/
structure BiosInfo where
  vendor : Option String

/-- Result shape of `si.uuid()`: the `os` field. -/
structure UuidInfo where
  os : Option String

/-- Snapshot of every external query `checkEmulator` performs.  Each field
is the settled result of the corresponding awaited call: `Except.error m`
models a rejection with message `m`.  `readInitCgroup` models the
`fs.readFile('/proc/1/cgroup')` call of section 8. -/
structure SystemInfoProvider where
  system : Except String SystemIdent
  chassis : Except String (Option ChassisInfo)
  cpu : Except String CpuInfo
  networkInterfaces : Except String (List NetIface)
  bios : Except String BiosInfo
  uuid : Except String (Option UuidInfo)
  readInitCgroup : Except String String

/-- The evidences one probe pushes: positives (each accompanied by setting
`isEmulator = true` in the source) and error entries from its catch block. -/
structure ProbeOutcome where
  pos : List String
  err : List String
deriving DecidableEq

/-- The value returned by `checkEmulator`. -/
structure DetectionReport where
  is_emulator : Bool
  evidences : List String
  os : String
deriving DecidableEq

/-- Section 2's `virtualizationIndicators` list, verbatim. -/
def virtualizationIndicators : List String :=
  ["vmware", "virtualbox", "qemu", "kvm", "hyper-v", "parallels",
   "xen", "bhyve", "bochs", "acrn", "oracle", "azure"]

/-- Section 5's `virtualMacPrefixes` list, verbatim. -/
def virtualMacPrefixes : List String :=
  ["00:05:69", "00:0C:29", "00:1C:14", "00:50:56", "00:1C:42", "00:03:FF"]

/-- Section 6's `biosIndicators` list, verbatim. -/
def biosIndicators : List String :=
  ["virtual", "vmware", "qemu", "virtualbox", "xen", "parallels"]

/-- Section 1 of `checkEmulator`: the two development-mode checks.  Each
`if` both sets `isEmulator` and pushes one evidence string. -/
def executionModeEvidences (ctx : RuntimeContext) : List String :=
  (if !ctx.isPackaged then ["app.isPackaged=false (development mode)"] else []) ++
  (if ctx.env "NODE_ENV" = some "development" then ["NODE_ENV=development"] else [])

/-- Section 2 of `checkEmulator`: manufacturer/model indicators.  On query
failure the catch block pushes a single error evidence; on success one
evidence is pushed per indicator whose token occurs in the lower-cased
manufacturer or the lower-cased model. -/
def systemOutcome : Except String SystemIdent → ProbeOutcome
  | Except.error m => ⟨[], ["Error detecting system virtualization: " ++ m]⟩
  | Except.ok sys =>
    let manufacturer := lowerStr (orEmpty sys.manufacturer)
    let model := lowerStr (orEmpty sys.model)
    ⟨virtualizationIndicators.filterMap (fun indicator =>
      if jsIncludes manufacturer indicator || jsIncludes model indicator then
        some ("Detected virtualization indicator: \"" ++ indicator ++
          "\" in manufacturer/model (manufacturer: \"" ++ tmpl sys.manufacturer ++
          "\", model: \"" ++ tmpl sys.model ++ "\")")
      else none), []⟩

/-- Section 3 of `checkEmulator`: chassis type check (guarded by the JS
truthiness of `chassis` and `chassis.type`). -/
def chassisOutcome : Except String (Option ChassisInfo) → ProbeOutcome
  | Except.error m => ⟨[], ["Error retrieving chassis information: " ++ m]⟩
  | Except.ok none => ⟨[], []⟩
  | Except.ok (some c) =>
    match c.type with
    | none => ⟨[], []⟩
    | some t =>
      if !t.isEmpty && jsIncludes (lowerStr t) "virtual" then
        ⟨["Chassis type indicates virtualization: \"" ++ t ++ "\""], []⟩
      else ⟨[], []⟩

/-- Section 4 of `checkEmulator`: CPU brand check. -/
def cpuOutcome : Except String CpuInfo → ProbeOutcome
  | Except.error m => ⟨[], ["Error retrieving CPU information: " ++ m]⟩
  | Except.ok c =>
    let cpuBrand := lowerStr (orEmpty c.brand)
    if jsIncludes cpuBrand "virtual" || jsIncludes cpuBrand "vmware" ||
        jsIncludes cpuBrand "qemu" then
      ⟨["CPU brand indicates virtualization: \"" ++ tmpl c.brand ++ "\""], []⟩
    else ⟨[], []⟩

/-- Inner loop of section 5 for one interface: if the MAC is truthy, its
first 8 characters are upper-cased and compared for equality against each
entry of `virtualMacPrefixes`, pushing one evidence per equal entry. -/
def ifaceEvidences (i : NetIface) : List String :=
  match i.mac with
  | none => []
  | some mac =>
    if mac.isEmpty then []
    else
      let macPre := upperStr (takeStr mac 8)
      virtualMacPrefixes.filterMap (fun pre =>
        if macPre = pre then
          some ("Network interface " ++ i.iface ++ " has MAC address " ++ mac ++
            " with virtualization prefix (" ++ pre ++ ")")
        else none)

/-- Section 5 of `checkEmulator`: network-interface MAC check. -/
def networkOutcome : Except String (List NetIface) → ProbeOutcome
  | Except.error m => ⟨[], ["Error retrieving network interface information: " ++ m]⟩
  | Except.ok ifs => ⟨(ifs.map ifaceEvidences).flatten, []⟩

/-- Section 6 of `checkEmulator`: BIOS vendor indicators. -/
def biosOutcome : Except String BiosInfo → ProbeOutcome
  | Except.error m => ⟨[], ["Error retrieving BIOS information: " ++ m]⟩
  | Except.ok b =>
    let biosVendor := lowerStr (orEmpty b.vendor)
    ⟨biosIndicators.filterMap (fun indicator =>
      if jsIncludes biosVendor indicator then
        some ("BIOS vendor indicates virtualization: \"" ++ tmpl b.vendor ++
          "\" contains \"" ++ indicator ++ "\"")
      else none), []⟩

/-- Section 7 of `checkEmulator`: OS-UUID check (guarded by the JS
truthiness of `uuidData` and `uuidData.os`). -/
def uuidOutcome : Except String (Option UuidInfo) → ProbeOutcome
  | Except.error m => ⟨[], ["Error retrieving UUID information: " ++ m]⟩
  | Except.ok none => ⟨[], []⟩
  | Except.ok (some d) =>
    match d.os with
    | none => ⟨[], []⟩
    | some s =>
      if s.isEmpty then ⟨[], []⟩
      else
        let uuidOs := lowerStr s
        if jsIncludes uuidOs "vmware" || jsIncludes uuidOs "virtual" ||
            jsIncludes uuidOs "vbox" then
          ⟨["UUID indicates virtualization: \"" ++ s ++ "\""], []⟩
        else ⟨[], []⟩

/-- Section 8 of `checkEmulator`: the Linux-only cgroup check.  A failed
file read is swallowed by its empty catch block (no evidence of any kind),
and the whole section is skipped off Linux. -/
def cgroupOutcome (platform : String) : Except String String → ProbeOutcome
  | Except.error _ => ⟨[], []⟩
  | Except.ok cgroup =>
    if platform = "linux" then
      if jsIncludes cgroup "docker" || jsIncludes cgroup "lxc" then
        ⟨["Detected container environment via /proc/1/cgroup"], []⟩
      else ⟨[], []⟩
    else ⟨[], []⟩

/-- Section 9 of `checkEmulator`: container-marker environment variables.
The single `if` tests the JS truthiness of `DOCKER_CONTAINER` or
`CONTAINER` and pushes at most one evidence. -/
def containerEnvEvidences (ctx : RuntimeContext) : List String :=
  if truthy (ctx.env "DOCKER_CONTAINER") || truthy (ctx.env "CONTAINER") then
    ["Environment variable indicates container/emulator environment"]
  else []

/-- The trailing `switch (process.platform)` of `checkEmulator`. -/
def resolveOsName (platform : String) : String :=
  if platform = "win32" then "Windows"
  else if platform = "darwin" then "macOS"
  else platform

/-- Folding one probe's outcome into the running `(isEmulator, evidences)`
state: every push of a positive evidence in the source is accompanied by
`isEmulator = true`, and error evidences leave the flag unchanged. -/
def applyOutcome (st : Bool × List String) (o : ProbeOutcome) : Bool × List String :=
  (st.1 || !o.pos.isEmpty, st.2 ++ o.pos ++ o.err)

/-- The embedding of `checkEmulator` (src/main.js lines 8-153): sections
run in source order, threading the mutable `isEmulator` flag and
`evidences` array, and the report is assembled at the end. -/
def checkEmulator (ctx : RuntimeContext) (p : SystemInfoProvider) : DetectionReport :=
  let st0 : Bool × List String := (false, [])
  let st1 : Bool × List String :=
    (st0.1 || !ctx.isPackaged,
     st0.2 ++ (if !ctx.isPackaged then ["app.isPackaged=false (development mode)"] else []))
  let st2 : Bool × List String :=
    (st1.1 || decide (ctx.env "NODE_ENV" = some "development"),
     st1.2 ++ (if ctx.env "NODE_ENV" = some "development" then ["NODE_ENV=development"] else []))
  let st3 := applyOutcome st2 (systemOutcome p.system)
  let st4 := applyOutcome st3 (chassisOutcome p.chassis)
  let st5 := applyOutcome st4 (cpuOutcome p.cpu)
  let st6 := applyOutcome st5 (networkOutcome p.networkInterfaces)
  let st7 := applyOutcome st6 (biosOutcome p.bios)
  let st8 := applyOutcome st7 (uuidOutcome p.uuid)
  let st9 := applyOutcome st8 (cgroupOutcome ctx.platform p.readInitCgroup)
  let st10 : Bool × List String :=
    (st9.1 || (truthy (ctx.env "DOCKER_CONTAINER") || truthy (ctx.env "CONTAINER")),
     st9.2 ++ containerEnvEvidences ctx)
  ⟨st10.1, st10.2, resolveOsName ctx.platform⟩

/-- All positive (non-error) evidences of one run, in the order the
probes record them. -/
def positiveEvidences (ctx : RuntimeContext) (p : SystemInfoProvider) : List String :=
  executionModeEvidences ctx ++
  (systemOutcome p.system).pos ++
  (chassisOutcome p.chassis).pos ++
  (cpuOutcome p.cpu).pos ++
  (networkOutcome p.networkInterfaces).pos ++
  (biosOutcome p.bios).pos ++
  (uuidOutcome p.uuid).pos ++
  (cgroupOutcome ctx.platform p.readInitCgroup).pos ++
  containerEnvEvidences ctx

/-- Both evidence streams of one probe in push order (a probe never has
positives and an error in the same run, so this is exactly its pushes). -/
def outcomeEvidences (o : ProbeOutcome) : List String := o.pos ++ o.err

/-- A provider every one of whose queries fails, with per-query messages. -/
def allFailProvider (m1 m2 m3 m4 m5 m6 m7 : String) : SystemInfoProvider :=
  ⟨Except.error m1, Except.error m2, Except.error m3, Except.error m4,
   Except.error m5, Except.error m6, Except.error m7⟩

/-- A conditional singleton evidence list is empty exactly when its
condition fails. -/
lemma ite_singleton_eq_nil {c : Prop} [Decidable c] (x : String) :
    ((if c then [x] else []) = ([] : List String)) ↔ ¬c := by
  split <;> simp_all

/-- Claim C1: for every RuntimeContext and SystemInfoProvider, the report
returned by `checkEmulator` has `is_emulator = true` iff at least one
positive (non-error) Evidence was recorded by some probe; error Evidences
alone never make it true. -/
theorem claimC1_verdict_iff_positive (ctx : RuntimeContext) (p : SystemInfoProvider) :
    (checkEmulator ctx p).is_emulator = true ↔ positiveEvidences ctx p ≠ [] := by
  cases hp : ctx.isPackaged <;>
  by_cases hn : ctx.env "NODE_ENV" = some "development" <;>
  cases hd : truthy (ctx.env "DOCKER_CONTAINER") <;>
  cases hc : truthy (ctx.env "CONTAINER") <;>
  simp [checkEmulator, applyOutcome, positiveEvidences, executionModeEvidences,
    containerEnvEvidences, hp, hn, hd, hc, List.append_eq_nil, not_and_or] <;>
  tauto

/-- Claim C6: the evidences of one run are exactly the per-probe evidence
streams concatenated in probe-registration order (execution mode, system
identity, chassis, CPU, network, BIOS, UUID, container cgroup, container
env var); within each probe the stream follows the order the indicators
were checked, by construction of the outcome functions. -/
theorem claimC6_evidence_order (ctx : RuntimeContext) (p : SystemInfoProvider) :
    (checkEmulator ctx p).evidences =
      executionModeEvidences ctx ++
      outcomeEvidences (systemOutcome p.system) ++
      outcomeEvidences (chassisOutcome p.chassis) ++
      outcomeEvidences (cpuOutcome p.cpu) ++
      outcomeEvidences (networkOutcome p.networkInterfaces) ++
      outcomeEvidences (biosOutcome p.bios) ++
      outcomeEvidences (uuidOutcome p.uuid) ++
      outcomeEvidences (cgroupOutcome ctx.platform p.readInitCgroup) ++
      containerEnvEvidences ctx := by
  simp [checkEmulator, applyOutcome, outcomeEvidences, executionModeEvidences,
    List.append_assoc]

/-- Claim C7: the clean-physical-host input of Scenario A yields exactly
`{is_emulator: false, evidences: [], os: "Windows"}`. -/
theorem claimC7_scenarioA :
    checkEmulator ⟨true, (fun _ => none), "win32"⟩
      ⟨Except.ok ⟨some "Dell Inc.", some "XPS 13"⟩,
       Except.ok (some ⟨some "Notebook"⟩),
       Except.ok ⟨some "Intel(R) Core(TM) i7"⟩,
       Except.ok [⟨"Ethernet", some "A4:4C:C8:11:22:33"⟩],
       Except.ok ⟨some "Dell Inc."⟩,
       Except.ok (some ⟨some "4C4C4544-004B-3510-8058-B4C04F4A3258"⟩),
       Except.error "EACCES"⟩ = ⟨false, [], "Windows"⟩ := by
  decide

/-- Claim C9: `checkEmulator` is deterministic in its inputs — two
invocations on the same RuntimeContext and SystemInfoProvider snapshot
return structurally identical DetectionReports. -/
theorem claimC9_deterministic (ctx : RuntimeContext) (p : SystemInfoProvider) :
    checkEmulator ctx p = checkEmulator ctx p := rfl

/-- Claim C3 counterexample: on the Scenario B input (manufacturer
"VMware, Inc.", model "VMware Virtual Platform", everything else clean)
the code emits a single Evidence for the "vmware" token, not two distinct
per-field entries: the evidence list has length 1. -/
theorem claimC3_counterexample :
    (checkEmulator ⟨true, (fun _ => none), "linux"⟩
      ⟨Except.ok ⟨some "VMware, Inc.", some "VMware Virtual Platform"⟩,
       Except.ok none, Except.ok ⟨none⟩, Except.ok [], Except.ok ⟨none⟩,
       Except.ok none, Except.error "ENOENT"⟩).evidences.length = 1 := by
  decide

/-- Claim C3 amended: when the same indicator token occurs in both the
lower-cased manufacturer and the lower-cased model, a single combined
Evidence is emitted for that token (the match condition is a disjunction
over the two fields); on the Scenario B input the full report is the
verdict `true` with exactly one "vmware" evidence naming both fields. -/
theorem claimC3_amended_single_evidence :
    checkEmulator ⟨true, (fun _ => none), "linux"⟩
      ⟨Except.ok ⟨some "VMware, Inc.", some "VMware Virtual Platform"⟩,
       Except.ok none, Except.ok ⟨none⟩, Except.ok [], Except.ok ⟨none⟩,
       Except.ok none, Except.error "ENOENT"⟩ =
    ⟨true,
     ["Detected virtualization indicator: \"vmware\" in manufacturer/model (manufacturer: \"VMware, Inc.\", model: \"VMware Virtual Platform\")"],
     "linux"⟩ := by
  decide

/-- Claim C2: when every provider query fails and the context is packaged
with no dev-mode or container environment variables, `checkEmulator`
returns `is_emulator = false` and an evidence list made of exactly one
error entry per queried category, in probe order. -/
theorem claimC2_all_queries_fail (ctx : RuntimeContext)
    (m1 m2 m3 m4 m5 m6 m7 : String)
    (hp : ctx.isPackaged = true)
    (hn : ctx.env "NODE_ENV" ≠ some "development")
    (hd : truthy (ctx.env "DOCKER_CONTAINER") = false)
    (hc : truthy (ctx.env "CONTAINER") = false) :
    (checkEmulator ctx (allFailProvider m1 m2 m3 m4 m5 m6 m7)).is_emulator = false ∧
    (checkEmulator ctx (allFailProvider m1 m2 m3 m4 m5 m6 m7)).evidences =
      ["Error detecting system virtualization: " ++ m1,
       "Error retrieving chassis information: " ++ m2,
       "Error retrieving CPU information: " ++ m3,
       "Error retrieving network interface information: " ++ m4,
       "Error retrieving BIOS information: " ++ m5,
       "Error retrieving UUID information: " ++ m6] := by
  constructor <;>
  simp [checkEmulator, applyOutcome, allFailProvider, systemOutcome, chassisOutcome,
    cpuOutcome, networkOutcome, biosOutcome, uuidOutcome, cgroupOutcome,
    executionModeEvidences, containerEnvEvidences, hp, hn, hd, hc]

/-- Claim C2 witness: a concrete packaged context with an empty
environment and a provider whose seven queries all fail. -/
theorem claimC2_all_queries_fail_witness :
    (checkEmulator ⟨true, (fun _ => none), "linux"⟩
      (allFailProvider "e1" "e2" "e3" "e4" "e5" "e6" "e7")).is_emulator = false ∧
    (checkEmulator ⟨true, (fun _ => none), "linux"⟩
      (allFailProvider "e1" "e2" "e3" "e4" "e5" "e6" "e7")).evidences =
      ["Error detecting system virtualization: e1",
       "Error retrieving chassis information: e2",
       "Error retrieving CPU information: e3",
       "Error retrieving network interface information: e4",
       "Error retrieving BIOS information: e5",
       "Error retrieving UUID information: e6"] :=
  claimC2_all_queries_fail ⟨true, (fun _ => none), "linux"⟩
    "e1" "e2" "e3" "e4" "e5" "e6" "e7" rfl (by decide) rfl rfl

/-- For a fixed key, a filterMap over a duplicate-free list that keeps
exactly the entries equal to the key yields at most one element. -/
lemma filterMap_ifeq_length_le_one {α β : Type} [DecidableEq α] (x : α) (f : α → β) :
    ∀ l : List α, l.Nodup →
      (l.filterMap (fun a => if x = a then some (f a) else none)).length ≤ 1 := by
  intro l
  induction l with
  | nil => intro _; simp
  | cons a t ih =>
    intro h
    rcases List.nodup_cons.mp h with ⟨ha, ht⟩
    by_cases hx : x = a
    · subst hx
      have hnil : t.filterMap (fun b => if x = b then some (f b) else none) = [] := by
        rw [List.filterMap_eq_nil_iff]
        intro b hb
        have hxb : ¬ x = b := fun hh => ha (hh ▸ hb)
        simp [hxb]
      have hcons : List.filterMap (fun b => if x = b then some (f b) else none) (x :: t) =
          f x :: List.filterMap (fun b => if x = b then some (f b) else none) t :=
        List.filterMap_cons_some (by simp)
      rw [hcons, hnil]
      simp
    · rw [List.filterMap_cons_none (by simp [hx])]
      exact ih ht

/-- Claim C4: the network probe compares the upper-cased first 8
characters of the MAC for equality against the fixed list: the MAC
"00:1C:14:AA:BB:CC" matches "00:1C:14", the separator-less MAC
"001C:1400:00:00" matches nothing despite containing "00:1C:14"-like
digits, and every interface contributes at most one Evidence. -/
theorem claimC4_mac_exactness :
    ifaceEvidences ⟨"eth0", some "00:1C:14:AA:BB:CC"⟩ =
      ["Network interface eth0 has MAC address 00:1C:14:AA:BB:CC with virtualization prefix (00:1C:14)"] ∧
    ifaceEvidences ⟨"eth1", some "001C:1400:00:00"⟩ = [] ∧
    ∀ i : NetIface, (ifaceEvidences i).length ≤ 1 := by
  refine ⟨by decide, by decide, ?_⟩
  intro i
  rcases i with ⟨nm, mac⟩
  cases mac with
  | none => simp [ifaceEvidences]
  | some m =>
    simp only [ifaceEvidences]
    split
    · simp
    · exact filterMap_ifeq_length_le_one (upperStr (takeStr m 8))
        (fun pre => "Network interface " ++ nm ++ " has MAC address " ++ m ++
          " with virtualization prefix (" ++ pre ++ ")")
        virtualMacPrefixes (by decide)

/-- Claim C5 counterexample: a failing system-identity query with message
"boom" is recorded as "Error detecting system virtualization: boom",
which is not of the claimed shape "Error retrieving <category>
information: <message>" for any category string. -/
theorem claimC5_counterexample :
    (systemOutcome (Except.error "boom")).err =
      ["Error detecting system virtualization: boom"] ∧
    ∀ cat : String,
      "Error detecting system virtualization: boom" ≠
        "Error retrieving " ++ (cat ++ " information: boom") := by
  refine ⟨rfl, ?_⟩
  intro cat h
  have h2 := congrArg (fun s : String => s.data.take 17) h
  simp only at h2
  rw [show ("Error retrieving " ++ (cat ++ " information: boom")).data =
      "Error retrieving ".data ++ (cat ++ " information: boom").data from rfl] at h2
  rw [List.take_left' (show ("Error retrieving ".data : List Char).length = 17 by decide)] at h2
  exact absurd h2 (by decide)

/-- Claim C5 amended: every provider-querying probe converts a query
failure with message m into exactly one error Evidence and no positive
Evidence; the chassis, CPU, network, BIOS and UUID probes use the form
"Error retrieving <category> information: <m>", while the system-identity
probe uses "Error detecting system virtualization: <m>". -/
theorem claimC5_amended_error_evidences (m : String) :
    systemOutcome (Except.error m) =
      ⟨[], ["Error detecting system virtualization: " ++ m]⟩ ∧
    chassisOutcome (Except.error m) =
      ⟨[], ["Error retrieving chassis information: " ++ m]⟩ ∧
    cpuOutcome (Except.error m) =
      ⟨[], ["Error retrieving CPU information: " ++ m]⟩ ∧
    networkOutcome (Except.error m) =
      ⟨[], ["Error retrieving network interface information: " ++ m]⟩ ∧
    biosOutcome (Except.error m) =
      ⟨[], ["Error retrieving BIOS information: " ++ m]⟩ ∧
    uuidOutcome (Except.error m) =
      ⟨[], ["Error retrieving UUID information: " ++ m]⟩ :=
  ⟨rfl, rfl, rfl, rfl, rfl, rfl⟩

/-- Claim C8: the container cgroup probe is positive (one Evidence) iff
the platform is "linux" and the cgroup file was read successfully with
content containing "docker" or "lxc"; off Linux or on a failed read it
contributes neither positive nor error Evidence. -/
theorem claimC8_cgroup_probe (pf : String) (r : Except String String) :
    (cgroupOutcome pf r).err = [] ∧
    (cgroupOutcome pf r).pos.length ≤ 1 ∧
    ((cgroupOutcome pf r).pos ≠ [] ↔
      (pf = "linux" ∧ ∃ c, r = Except.ok c ∧
        (jsIncludes c "docker" = true ∨ jsIncludes c "lxc" = true))) := by
  cases r with
  | error m => simp [cgroupOutcome]
  | ok c =>
    by_cases hpf : pf = "linux"
    · subst hpf
      cases hdocker : jsIncludes c "docker" <;> cases hlxc : jsIncludes c "lxc" <;>
        simp [cgroupOutcome, hdocker, hlxc]
    · simp [cgroupOutcome, hpf]

/-- Claim C10: the container environment-variable probe fires iff
DOCKER_CONTAINER or CONTAINER is set to a non-empty string (JS
truthiness); an empty-string value does not trigger it, and even with
both variables set only a single Evidence is emitted. -/
theorem claimC10_container_env (ctx : RuntimeContext) :
    (∀ o : Option String, truthy o = true ↔ ∃ s, o = some s ∧ s ≠ "") ∧
    (containerEnvEvidences ctx =
        ["Environment variable indicates container/emulator environment"] ↔
      (truthy (ctx.env "DOCKER_CONTAINER") = true ∨
        truthy (ctx.env "CONTAINER") = true)) ∧
    (containerEnvEvidences ctx).length ≤ 1 ∧
    containerEnvEvidences ⟨true,
      (fun k => if k = "DOCKER_CONTAINER" then some "" else
        if k = "CONTAINER" then some "" else none), "linux"⟩ = [] ∧
    containerEnvEvidences ⟨true,
      (fun k => if k = "DOCKER_CONTAINER" then some "1" else
        if k = "CONTAINER" then some "yes" else none), "linux"⟩ =
      ["Environment variable indicates container/emulator environment"] := by
  refine ⟨?_, ?_, ?_, by decide, by decide⟩
  · intro o
    cases o with
    | none => simp [truthy]
    | some s => simp [truthy, Bool.eq_false_iff, String.isEmpty_iff]
  · cases hd : truthy (ctx.env "DOCKER_CONTAINER") <;>
      cases hc : truthy (ctx.env "CONTAINER") <;>
      simp [containerEnvEvidences, hd, hc]
  · cases hd : truthy (ctx.env "DOCKER_CONTAINER") <;>
      cases hc : truthy (ctx.env "CONTAINER") <;>
      simp [containerEnvEvidences, hd, hc]

end EmulatorDetector
